import Mathlib

/-!
Verification development for the skill-evaluation and mastery-tracking
pipeline of the hikkinomore-buddy-server repository.  The Python source is
shallowly embedded: floats become rationals, datetimes become naturals
(seconds), the SQLite store becomes an explicit state value, and the external
evaluator agent becomes an oracle function.  Each definition mirrors one
function of the source tree (src/skills.py, src/utils.py, src/agents/skill.py,
src/db.py, src/agents/chat.py).
-/

namespace HikkiBuddy

/-- Configuration constant from src/agents/skill.py: MASTERY_THRESHOLD = 0.8. -/
def MASTERY_THRESHOLD : ℚ := 8 / 10

/-- Configuration constant from src/agents/skill.py: RECENCY_ALPHA = 0.7. -/
def RECENCY_ALPHA : ℚ := 7 / 10

/-- Configuration constant from src/agents/skill.py: MIN_SCORES_FOR_MASTERY = 3. -/
def MIN_SCORES_FOR_MASTERY : ℕ := 3

/-- Hardcoded social skills dictionary from src/agents/skill.py (name, one-line
definition), in insertion order. -/
def SOCIAL_SKILLS : List (String × String) :=
  [("active_listening", "Shows understanding by paraphrasing, asking clarifying questions, or reflecting back what was heard."),
   ("assertiveness", "Expresses opinions, needs, or boundaries clearly and respectfully without being aggressive or passive."),
   ("empathy", "Demonstrates understanding and acknowledgment of another person\x27s feelings and perspectives."),
   ("conversation_initiation", "Starts conversations naturally and appropriately in social contexts."),
   ("conflict_resolution", "Addresses disagreements or tensions constructively and seeks mutually beneficial solutions."),
   ("emotional_regulation", "Manages own emotions appropriately in social situations, staying calm under pressure."),
   ("social_awareness", "Reads social cues, understands group dynamics, and adapts behavior to social context."),
   ("encouragement", "Provides positive support, validation, or motivation to others."),
   ("boundary_setting", "Clearly communicates personal limits and respects others\x27 boundaries."),
   ("small_talk", "Engages in light, casual conversation to build rapport and maintain social connections.")]

/-- Iteration order of the skills dictionary keys (Python dicts preserve
insertion order, and `for skill_type in SOCIAL_SKILLS` iterates keys). -/
def socialSkillNames : List String := SOCIAL_SKILLS.map Prod.fst

/-- Ordering of (score, timestamp) pairs by timestamp, the key function
`lambda x: x[1]` used by `sorted` in src/skills.py. -/
def byTimeLe (a b : ℚ × ℕ) : Prop := a.2 ≤ b.2

instance : DecidableRel byTimeLe := fun a b => inferInstanceAs (Decidable (a.2 ≤ b.2))

instance : IsTotal (ℚ × ℕ) byTimeLe := ⟨fun a b => Nat.le_total a.2 b.2⟩

instance : IsTrans (ℚ × ℕ) byTimeLe := ⟨fun _ _ _ h h' => Nat.le_trans h h'⟩

/-- src/skills.py `calculate_weighted_score`: sort by timestamp (oldest first;
Python `sorted` is stable, modelled by `List.insertionSort`), seed the running
value with the first score, then blend each later score in with weight
`alpha`.  The Python default argument `alpha=RECENCY_ALPHA` is passed
explicitly at every call site of this embedding. -/
def calculate_weighted_score (scores : List (ℚ × ℕ)) (alpha : ℚ) : ℚ :=
  if scores.isEmpty then 0
  else
    match List.insertionSort byTimeLe scores with
    | [] => 0
    | first :: rest =>
        rest.foldl (fun weighted_score p => alpha * p.1 + (1 - alpha) * weighted_score) first.1

/-- src/skills.py `is_skill_mastered`: below `MIN_SCORES_FOR_MASTERY`
observations the answer is false; otherwise compare the weighted score
(computed with the default alpha) against the threshold. -/
def is_skill_mastered (scores : List (ℚ × ℕ)) (threshold : ℚ) : Bool :=
  if scores.length < MIN_SCORES_FOR_MASTERY then false
  else decide (threshold ≤ calculate_weighted_score scores RECENCY_ALPHA)

/-- Role literal of a ConversationMessage (src/structs.py: Literal of system, user, assistant). -/
inductive Role where
  | system
  | user
  | assistant
deriving DecidableEq, Repr

/-- Lower-case role string, as stored in the Python model. -/
def Role.toStr : Role → String
  | .system => "system"
  | .user => "user"
  | .assistant => "assistant"

/-- Python str.upper() applied to the role string (src/utils.py format_conversation). -/
def Role.upper : Role → String
  | .system => "SYSTEM"
  | .user => "USER"
  | .assistant => "ASSISTANT"

/-- src/structs.py ConversationMessage: simplified message structure for skill
evaluation.  Timestamps are modelled as seconds (naturals). -/
structure ConversationMessage where
  role : Role
  content : String
  timestamp : Option ℕ := none
deriving DecidableEq, Repr

/-- src/structs.py SkillJudgement: raw structured output of the evaluator agent. -/
structure SkillJudgement where
  skill_type : Option String := none
  score : ℚ := 0
  reason : String := ""
  confidence : ℚ := 1
deriving DecidableEq, Repr

/-- src/structs.py SkillJudgementFull: SkillJudgement plus storage context.
The optional fields are none on a judgement that has not been stored yet. -/
structure SkillJudgementFull extends SkillJudgement where
  judgement_id : Option String := none
  user_id : Option String := none
  session_id : Option String := none
  conversation_context : Option String := none
  timestamp : Option ℕ := none
deriving DecidableEq, Repr

/-- Item of a user-prompt content sequence (pydantic_ai UserContent): either a
plain string fragment or non-text content (binary, URL, ...) which the
extractor drops. -/
inductive UserContentItem where
  | str (s : String)
  | nonText
deriving DecidableEq, Repr

/-- Part of a pydantic_ai ModelMessage, discriminated by part_kind exactly as
src/utils.py branches on it.  The optional timestamp models
getattr(part, "timestamp", None). -/
inductive MsgPart where
  | systemPrompt (content : String) (timestamp : Option ℕ)
  | userPrompt (content : String ⊕ List UserContentItem) (timestamp : Option ℕ)
  | text (content : String) (timestamp : Option ℕ)
  | thinking (content : String)
  | toolCall
  | toolReturn
  | retryPrompt
deriving DecidableEq, Repr

/-- Origin of a ModelMessage: pydantic_ai ModelRequest or ModelResponse. -/
inductive MsgOrigin where
  | request
  | response
deriving DecidableEq, Repr

/-- A pydantic_ai ModelMessage: an origin (request/response) and its parts. -/
structure ModelMsg where
  origin : MsgOrigin
  parts : List MsgPart
deriving DecidableEq, Repr

/-- Default role from the message type: ModelRequest parts default to user,
ModelResponse parts to assistant (src/utils.py lines 47-52). -/
def defaultRole : MsgOrigin → Role
  | .request => .user
  | .response => .assistant

/-- Join of string-typed fragments of a multimodal user prompt:
content = " ".join(text_parts) if text_parts else None (src/utils.py 79-88). -/
def joinTextItems (items : List UserContentItem) : Option String :=
  let text_parts := items.filterMap fun
    | .str s => some s
    | .nonText => none
  if text_parts.isEmpty then none else some (String.intercalate " " text_parts)

/-- Final emission guard of src/utils.py (line 113): only add messages whose
content is present and non-empty after stripping whitespace. -/
def emitIfContent (r : Role) (content : Option String) (ts : Option ℕ) :
    Option ConversationMessage :=
  match content with
  | some c => if c.trim.isEmpty then none else some { role := r, content := c, timestamp := ts }
  | none => none

/-- Per-part branch of src/utils.py convert_model_messages_to_conversation
(lines 58-120).  Returns the emitted ConversationMessage, if any. -/
def processPart (_role : Role) (skip_system skip_tool : Bool) (part : MsgPart) :
    Option ConversationMessage :=
  match part with
  | .systemPrompt content ts =>
      if skip_system then none else emitIfContent .system (some content) ts
  | .userPrompt raw ts =>
      let content : Option String :=
        match raw with
        | .inl s => some s
        | .inr items => joinTextItems items
      emitIfContent .user content ts
  | .text content ts => emitIfContent .assistant (some content) ts
  | .thinking _ => none
  | .toolCall => if skip_tool then none else none
  | .toolReturn => if skip_tool then none else none
  | .retryPrompt => if skip_tool then none else none

/-- Per-message step: skip messages without parts, then process each part with
the origin-derived default role (the role parameter is ignored by every
emitting branch, mirroring the source where each branch overrides part_role). -/
def processMsg (skip_system skip_tool : Bool) (m : ModelMsg) : List ConversationMessage :=
  if m.parts.isEmpty then []
  else m.parts.filterMap (processPart (defaultRole m.origin) skip_system skip_tool)

/-- Truncation at record granularity: message_history[-recent_messages:] if
len(message_history) >= recent_messages else message_history (src/utils.py
33-40).  Python slicing makes -0 the full list. -/
def takeRecent (history : List ModelMsg) (recent_messages : Option ℕ) : List ModelMsg :=
  match recent_messages with
  | none => history
  | some n =>
      if n = 0 then history
      else if n ≤ history.length then history.drop (history.length - n) else history

/-- src/utils.py convert_model_messages_to_conversation. -/
def convert_model_messages_to_conversation (message_history : List ModelMsg)
    (recent_messages : Option ℕ) (skip_system_messages skip_tool_messages : Bool) :
    List ConversationMessage :=
  (takeRecent message_history recent_messages).flatMap
    (processMsg skip_system_messages skip_tool_messages)

/-- Part kinds that the extractor never turns into conversation turns:
thinking, tool-call, tool-return, retry-prompt. -/
def isDroppedKind : MsgPart → Bool
  | .thinking _ => true
  | .toolCall => true
  | .toolReturn => true
  | .retryPrompt => true
  | _ => false

/-- Zero-padded two-digit rendering, modelling strftime fields. -/
def pad2 (n : ℕ) : String := if n < 10 then "0" ++ toString n else toString n

/-- Model of datetime.strftime with format %H:%M:%S over seconds-since-epoch. -/
def strftimeHMS (t : ℕ) : String :=
  pad2 (t / 3600 % 24) ++ ":" ++ pad2 (t % 3600 / 60) ++ ":" ++ pad2 (t % 60)

/-- src/utils.py format_conversation: one line per message,
"ROLE [HH:MM:SS]: content", joined by newlines. -/
def format_conversation (messages : List ConversationMessage) : String :=
  String.intercalate "\n" (messages.map fun msg =>
    let timestamp_str :=
      match msg.timestamp with
      | some t => " [" ++ strftimeHMS t ++ "]"
      | none => ""
    msg.role.upper ++ timestamp_str ++ ": " ++ msg.content)

/-- Models pydantic BaseModel.model_dump_json for a ConversationMessage: an
deterministic JSON rendering (external library behavior). -/
def modelDumpJson (m : ConversationMessage) : String :=
  "\x7b\"role\":\"" ++ m.role.toStr ++ "\",\"content\":\"" ++ m.content ++
    "\",\"timestamp\":" ++
    (match m.timestamp with
     | some t => toString t
     | none => "null") ++ "\x7d"

/-- Outcome of one agent.run call: structured output, an
UnexpectedModelBehavior error (the only exception type the source catches), or
any other raised error (transport failure, cancellation, ...). -/
inductive AgentOutcome where
  | success (output : SkillJudgement)
  | unexpectedModelBehavior (cause : String)
  | otherError (cause : String)
deriving DecidableEq, Repr

/-- src/agents/skill.py evaluate_conversation: format the conversation, build
the prompt, run the agent; on success wrap the output into a
SkillJudgementFull (copying skill_type, score, reason, confidence verbatim,
snapshotting the conversation, stamping datetime.now modelled by the `now`
argument); on UnexpectedModelBehavior return a null judgement carrying the
cause; any other raised error propagates (modelled by Except.error). -/
def evaluate_conversation (agentRun : String → AgentOutcome)
    (messages : List ConversationMessage) (user_profile : Option String) (now : ℕ) :
    Except String SkillJudgementFull :=
  let conversation_text := format_conversation messages
  let profile_context :=
    match user_profile with
    | some notes => "\nUser Profile Context: " ++ notes
    | none => ""
  let prompt := "Analyze this conversation for social skill demonstration:\n\n" ++
    conversation_text ++ profile_context ++
    "\n\nFocus on the user\x27s behavior and provide your evaluation."
  match agentRun prompt with
  | .success output =>
      .ok { skill_type := output.skill_type
            score := output.score
            reason := output.reason
            confidence := output.confidence
            judgement_id := none
            user_id := none
            session_id := none
            conversation_context :=
              some (String.intercalate "\n" (messages.map modelDumpJson))
            timestamp := some now }
  | .unexpectedModelBehavior cause =>
      .ok { skill_type := none
            score := 0
            reason := "Evaluation error: " ++ cause
            confidence := 1
            judgement_id := none
            user_id := none
            session_id := none
            conversation_context := none
            timestamp := none }
  | .otherError cause => .error cause

/-- src/skills.py evaluate_recent_conversation: extract turns (skipping system
and tool parts, truncating to the last recent_messages records when positive),
guard on fewer than 2 turns, otherwise delegate to evaluate_conversation with
user_profile = None. -/
def evaluate_recent_conversation (agentRun : String → AgentOutcome)
    (message_history : List ModelMsg) (recent_messages : ℤ) (now : ℕ) :
    Except String SkillJudgementFull :=
  let conversation_messages := convert_model_messages_to_conversation message_history
    (if 0 < recent_messages then some recent_messages.toNat else none) true true
  if conversation_messages.length < 2 then
    .ok { skill_type := none
          score := 0
          reason := "Insufficient conversation history for evaluation"
          confidence := 1
          judgement_id := none
          user_id := none
          session_id := none
          conversation_context := none
          timestamp := none }
  else
    evaluate_conversation agentRun conversation_messages none now

/-- Row of the skill_evaluations table (src/db.py schema, lines 64-79).
skill_type is modelled as an Option whose NOT NULL constraint is enforced by
add_skill_evaluation; created_at is the store-assigned timestamp. -/
structure SkillEvalRow where
  id : ℕ
  user_id : String
  session_id : String
  skill_type : Option String
  score : ℚ
  reason : String
  confidence : ℚ
  conversation_context : Option String
  created_at : ℕ
deriving DecidableEq, Repr

/-- State of the skill_evaluations table: rows in insertion order plus the
autoincrement counter. -/
structure DBState where
  rows : List SkillEvalRow
  nextId : ℕ
deriving DecidableEq, Repr

/-- src/db.py add_skill_evaluation: INSERT the judgement fields; the insert
omits created_at, so SQLite assigns CURRENT_TIMESTAMP (modelled by the `now`
argument — the write-time server clock).  The NOT NULL constraint on
skill_type rejects a null skill (modelled by Except.error). -/
def add_skill_evaluation (st : DBState) (now : ℕ) (user_id session_id : String)
    (judgement : SkillJudgementFull) : Except String DBState :=
  match judgement.skill_type with
  | none => .error "NOT NULL constraint failed: skill_evaluations.skill_type"
  | some _ =>
      .ok { rows := st.rows ++
              [{ id := st.nextId
                 user_id := user_id
                 session_id := session_id
                 skill_type := judgement.skill_type
                 score := judgement.score
                 reason := judgement.reason
                 confidence := judgement.confidence
                 conversation_context := judgement.conversation_context
                 created_at := now }]
            nextId := st.nextId + 1 }

/-- Ordering of stored rows by the server-assigned creation timestamp. -/
def rowLe (a b : SkillEvalRow) : Prop := a.created_at ≤ b.created_at

instance : DecidableRel rowLe := fun a b => inferInstanceAs (Decidable (a.created_at ≤ b.created_at))

instance : IsTotal SkillEvalRow rowLe := ⟨fun a b => Nat.le_total a.created_at b.created_at⟩

instance : IsTrans SkillEvalRow rowLe := ⟨fun _ _ _ h h' => Nat.le_trans h h'⟩

/-- Modelled from the spec: `get_skill_history` is called by src/skills.py
(line 193) and src/app.py (line 158) but its definition is not part of the
repository snapshot.  Per spec section 4.4, query(user_id, session_id
optional) returns the stored judgment records for the user, optionally scoped
to one session, ascending by stored timestamp. -/
def get_skill_history (st : DBState) (user_id : String) (session_id : Option String) :
    List SkillEvalRow :=
  List.insertionSort rowLe (st.rows.filter fun r =>
    decide (r.user_id = user_id) &&
      match session_id with
      | none => true
      | some s => decide (r.session_id = s))

/-- Storage decision of the judge_conversation tool (src/agents/chat.py lines
115-152): persist only when skill_type is non-null; the surrounding
try/except swallows a storage failure, leaving the store unchanged. -/
def judge_conversation_store (st : DBState) (now : ℕ) (user_id session_id : String)
    (skill_evaluation : SkillJudgementFull) : DBState :=
  if skill_evaluation.skill_type.isSome then
    match add_skill_evaluation st now user_id session_id skill_evaluation with
    | .ok st' => st'
    | .error _ => st
  else st

/-- Grouping step of src/skills.py get_user_skill_summary (lines 195-203):
scores_by_skill collects (score, timestamp) pairs per non-null skill type, in
history order; this reads one group of that dict. -/
def scoresFor (skill_history : List SkillEvalRow) (skill : String) : List (ℚ × ℕ) :=
  skill_history.filterMap fun evaluation =>
    match evaluation.skill_type with
    | some s => if s = skill then some (evaluation.score, evaluation.created_at) else none
    | none => none

/-- src/structs.py SkillStatus. -/
structure SkillStatus where
  weighted_score : ℚ
  is_mastered : Bool
  total_evaluations : ℕ
  latest_score : Option ℚ
deriving DecidableEq, Repr

/-- src/structs.py UserSkillSummary; skill_details keeps the insertion order
of the Python dict (one entry per taxonomy skill). -/
structure UserSkillSummary where
  total_skills : ℕ
  mastered_skills : ℕ
  skills_in_progress : ℕ
  skill_details : List (String × SkillStatus)
deriving DecidableEq, Repr

/-- Loop body of src/skills.py get_user_skill_summary (lines 210-233):
accumulates (skill_details, mastered_count, in_progress_count) over the
taxonomy. -/
def summaryFold (skill_history : List SkillEvalRow)
    (acc : List (String × SkillStatus) × ℕ × ℕ) (skill_type : String) :
    List (String × SkillStatus) × ℕ × ℕ :=
  let scores := scoresFor skill_history skill_type
  if scores.isEmpty then
    (acc.1 ++ [(skill_type, { weighted_score := 0, is_mastered := false,
                              total_evaluations := 0, latest_score := none })],
     acc.2.1, acc.2.2)
  else
    let weighted_score := calculate_weighted_score scores RECENCY_ALPHA
    let mastered := is_skill_mastered scores MASTERY_THRESHOLD
    (acc.1 ++ [(skill_type, { weighted_score := weighted_score, is_mastered := mastered,
                              total_evaluations := scores.length,
                              latest_score := scores.getLast?.map Prod.fst })],
     acc.2.1 + (if mastered then 1 else 0),
     acc.2.2 + (if mastered then 0 else 1))

/-- src/skills.py get_user_skill_summary (lines 187-242), applied to the
stored judgment history of the user. -/
def get_user_skill_summary (skill_history : List SkillEvalRow) : UserSkillSummary :=
  let folded := socialSkillNames.foldl (summaryFold skill_history) ([], 0, 0)
  { total_skills := socialSkillNames.length
    mastered_skills := folded.2.1
    skills_in_progress := folded.2.2
    skill_details := folded.1 }

/-- C1: for every ordered-by-time sequence of (score, timestamp) pairs the
position-based weighted score sorts ascending by timestamp (a no-op on an
already ordered sequence), seeds the running value with the earliest score and
folds running = 0.7*score + 0.3*running over the rest; in particular the
scores [(0.5,t1),(1.0,t2),(0.2,t3)] with t1 < t2 < t3 yield 0.395 = 79/200. -/
theorem weighted_score_position_blend :
    (∀ (s : List (ℚ × ℕ)), s ≠ [] → s.Sorted byTimeLe →
        calculate_weighted_score s RECENCY_ALPHA =
          s.tail.foldl (fun w p => RECENCY_ALPHA * p.1 + (1 - RECENCY_ALPHA) * w) s.headI.1) ∧
    ∀ (t1 t2 t3 : ℕ), t1 < t2 → t2 < t3 →
      calculate_weighted_score [(1/2, t1), (1, t2), (1/5, t3)] RECENCY_ALPHA = 79/200 := by
  constructor
  · intro s hne hs
    cases s with
    | nil => exact absurd rfl hne
    | cons a rest =>
        unfold calculate_weighted_score
        rw [hs.insertionSort_eq]
        simp
  · intro t1 t2 t3 h12 h23
    have hs : List.Sorted byTimeLe [((1:ℚ)/2, t1), (1, t2), ((1:ℚ)/5, t3)] := by
      simp [List.sorted_cons, byTimeLe]
      omega
    unfold calculate_weighted_score
    rw [hs.insertionSort_eq]
    simp only [List.isEmpty_cons, List.foldl]
    norm_num [RECENCY_ALPHA]

/-- Witness for C1 at the concrete input [(1/2,1),(1,2),(1/5,3)]. -/
theorem weighted_score_position_blend_witness :
    (calculate_weighted_score [((1:ℚ)/2, (1:ℕ)), (1, 2), (1/5, 3)] RECENCY_ALPHA =
      ([((1:ℚ)/2, (1:ℕ)), (1, 2), (1/5, 3)]).tail.foldl
        (fun w p => RECENCY_ALPHA * p.1 + (1 - RECENCY_ALPHA) * w)
        ([((1:ℚ)/2, (1:ℕ)), (1, 2), (1/5, 3)]).headI.1) ∧
    calculate_weighted_score [(1/2, 1), (1, 2), (1/5, 3)] RECENCY_ALPHA = 79/200 :=
  ⟨weighted_score_position_blend.1 _ (by decide) (by decide),
   weighted_score_position_blend.2 1 2 3 (by decide) (by decide)⟩

/-- C2: with fewer than 3 observations is_skill_mastered is false regardless
of the scores; with at least 3 it is true exactly when the position-based
weighted score reaches the threshold 0.8. -/
theorem is_mastered_spec :
    ∀ (s : List (ℚ × ℕ)),
      (s.length < 3 → is_skill_mastered s MASTERY_THRESHOLD = false) ∧
      (3 ≤ s.length →
        (is_skill_mastered s MASTERY_THRESHOLD = true ↔
          MASTERY_THRESHOLD ≤ calculate_weighted_score s RECENCY_ALPHA)) := by
  intro s
  constructor
  · intro h
    simp [is_skill_mastered, MIN_SCORES_FOR_MASTERY, h]
  · intro h
    simp [is_skill_mastered, MIN_SCORES_FOR_MASTERY, Nat.not_lt.mpr h]

/-- Witness for C2: a 2-element sequence of perfect scores is not mastered;
on a 3-element sequence mastery coincides with the threshold test. -/
theorem is_mastered_spec_witness :
    is_skill_mastered [((1:ℚ), (0:ℕ)), (1, 1)] MASTERY_THRESHOLD = false ∧
    (is_skill_mastered [((1:ℚ), (0:ℕ)), (1, 1), (1, 2)] MASTERY_THRESHOLD = true ↔
      MASTERY_THRESHOLD ≤
        calculate_weighted_score [((1:ℚ), (0:ℕ)), (1, 1), (1, 2)] RECENCY_ALPHA) :=
  ⟨(is_mastered_spec _).1 (by decide), (is_mastered_spec _).2 (by decide)⟩

/-- C3 counterexample: an evaluator output whose skill_type is the literal
string "N/A" is NOT normalized to a structural null by evaluate_conversation;
the resulting judgment keeps skill_type = some "N/A", a non-null value. -/
theorem skill_type_na_not_normalized :
    (evaluate_conversation
        (fun _ => AgentOutcome.success
          { skill_type := some "N/A", score := 1/2, reason := "ok", confidence := 1 })
        [{ role := .user, content := "hello", timestamp := none },
         { role := .assistant, content := "hi", timestamp := none }] none 0).map
      (fun j => j.skill_type) = .ok (some "N/A") ∧
    (some "N/A" : Option String) ≠ none := ⟨rfl, by simp⟩

/-- C3 amended: evaluate_conversation copies the returned evaluator
skill_type verbatim into the judgment — no textual null variant ("null",
"none", "na", "nil", "n/a", in any case) is normalized to a structural null. -/
theorem skill_type_passthrough :
    ∀ (output : SkillJudgement) (messages : List ConversationMessage)
      (user_profile : Option String) (now : ℕ),
      evaluate_conversation (fun _ => AgentOutcome.success output) messages user_profile now =
        .ok { skill_type := output.skill_type, score := output.score, reason := output.reason,
              confidence := output.confidence, judgement_id := none, user_id := none,
              session_id := none,
              conversation_context :=
                some (String.intercalate "\n" (messages.map modelDumpJson)),
              timestamp := some now } := by
  intro output messages user_profile now
  rfl

/-- C4 counterexample: a transport error raised by the evaluator invocation
(any exception other than UnexpectedModelBehavior) is not caught: it
propagates out of evaluate_conversation instead of becoming a null judgment. -/
theorem transport_error_propagates :
    evaluate_conversation (fun _ => AgentOutcome.otherError "connection reset") [] none 0 =
      .error "connection reset" ∧
    (evaluate_conversation (fun _ => AgentOutcome.otherError "connection reset")
        [] none 0).isOk = false := ⟨rfl, rfl⟩

/-- C4 amended: only UnexpectedModelBehavior failures (protocol violation or
malformed evaluator output) are caught and converted into a skill_type = null
judgment whose reason carries the cause; other evaluator failures such as
transport errors propagate to the caller. -/
theorem unexpected_behavior_caught :
    ∀ (cause : String) (messages : List ConversationMessage)
      (user_profile : Option String) (now : ℕ),
      evaluate_conversation (fun _ => AgentOutcome.unexpectedModelBehavior cause)
          messages user_profile now =
        .ok { skill_type := none, score := 0, reason := "Evaluation error: " ++ cause,
              confidence := 1, judgement_id := none, user_id := none, session_id := none,
              conversation_context := none, timestamp := none } := by
  intro cause messages user_profile now
  rfl

/-- C5 counterexample: on a history with fewer than 2 extracted turns the
returned reason is "Insufficient conversation history for evaluation", not the
literal "insufficient history" stated by the claim. -/
theorem insufficient_history_reason_differs :
    evaluate_recent_conversation (fun _ => AgentOutcome.otherError "net down") [] (-1) 0 =
      .ok { skill_type := none, score := 0,
            reason := "Insufficient conversation history for evaluation", confidence := 1,
            judgement_id := none, user_id := none, session_id := none,
            conversation_context := none, timestamp := none } ∧
    "Insufficient conversation history for evaluation" ≠ "insufficient history" :=
  ⟨rfl, by decide⟩

/-- C5 amended: whenever fewer than 2 conversation turns are extracted from
the history, evaluate_recent_conversation returns immediately with
skill_type = null and reason "Insufficient conversation history for
evaluation"; the result does not depend on the evaluator, which is never
invoked. -/
theorem insufficient_history_guard :
    ∀ (agentRun : String → AgentOutcome) (message_history : List ModelMsg)
      (recent_messages : ℤ) (now : ℕ),
      (convert_model_messages_to_conversation message_history
          (if 0 < recent_messages then some recent_messages.toNat else none)
          true true).length < 2 →
      evaluate_recent_conversation agentRun message_history recent_messages now =
        .ok { skill_type := none, score := 0,
              reason := "Insufficient conversation history for evaluation", confidence := 1,
              judgement_id := none, user_id := none, session_id := none,
              conversation_context := none, timestamp := none } := by
  intro agentRun message_history recent_messages now hlen
  simp only [evaluate_recent_conversation]
  rw [if_pos hlen]

/-- Witness for C5 amended at the empty history. -/
theorem insufficient_history_guard_witness :
    (convert_model_messages_to_conversation []
        (if (0:ℤ) < -1 then some (Int.toNat (-1)) else none) true true).length < 2 ∧
    evaluate_recent_conversation (fun _ => AgentOutcome.otherError "net down") [] (-1) 0 =
      .ok { skill_type := none, score := 0,
            reason := "Insufficient conversation history for evaluation", confidence := 1,
            judgement_id := none, user_id := none, session_id := none,
            conversation_context := none, timestamp := none } :=
  ⟨by decide, insufficient_history_guard _ [] (-1) 0 (by decide)⟩

/-- Record-level truncation only ever selects records of the input history. -/
theorem takeRecent_subset (history : List ModelMsg) (recent : Option ℕ) :
    ∀ m ∈ takeRecent history recent, m ∈ history := by
  intro m hm
  cases recent with
  | none => exact hm
  | some n =>
      have heq : takeRecent history (some n) =
          if n = 0 then history
          else if n ≤ history.length then history.drop (history.length - n) else history := rfl
      rw [heq] at hm
      by_cases h0 : n = 0
      · rw [if_pos h0] at hm
        exact hm
      · rw [if_neg h0] at hm
        by_cases hle : n ≤ history.length
        · rw [if_pos hle] at hm
          exact List.mem_of_mem_drop hm
        · rw [if_neg hle] at hm
          exact hm

/-- C8: extraction never emits a conversation turn from a thinking, tool-call,
tool-return or retry-prompt part, for every truncation and flag setting; a
history whose parts are all of those kinds extracts to the empty sequence. -/
theorem extraction_never_emits_thinking_or_tool :
    ∀ (message_history : List ModelMsg) (recent_messages : Option ℕ)
      (skip_system_messages skip_tool_messages : Bool),
      (∀ m ∈ message_history, ∀ p ∈ m.parts, isDroppedKind p = true) →
      convert_model_messages_to_conversation message_history recent_messages
        skip_system_messages skip_tool_messages = [] := by
  intro hist recent ss st hall
  unfold convert_model_messages_to_conversation
  rw [List.flatMap_eq_nil_iff]
  intro m hm
  have hparts := hall m (takeRecent_subset hist recent m hm)
  unfold processMsg
  split
  · rfl
  · rw [List.filterMap_eq_nil_iff]
    intro p hp
    have hdrop := hparts p hp
    cases p <;> simp_all [isDroppedKind, processPart]

/-- Witness for C8 at a history holding one thinking part and one tool-call
part (Scenario C). -/
theorem extraction_never_emits_witness :
    (∀ m ∈ [ModelMsg.mk .request [MsgPart.thinking "let me think", MsgPart.toolCall]],
        ∀ p ∈ m.parts, isDroppedKind p = true) ∧
    convert_model_messages_to_conversation
        [ModelMsg.mk .request [MsgPart.thinking "let me think", MsgPart.toolCall]]
        none true true = [] :=
  ⟨by decide, extraction_never_emits_thinking_or_tool _ none true true (by decide)⟩

/-- C6: appending a judgment and then querying the history of that user returns a
record carrying the same skill_type, score, reason and confidence, with a
server-assigned timestamp at least the append-call time; query results are
always ascending by stored timestamp. -/
theorem judgment_roundtrip :
    (∀ (st : DBState) (user_id : String) (session_id : Option String),
        (get_skill_history st user_id session_id).Sorted rowLe) ∧
    ∀ (st st' : DBState) (now callTime : ℕ) (user_id session_id : String)
      (judgement : SkillJudgementFull),
      callTime ≤ now →
      add_skill_evaluation st now user_id session_id judgement = .ok st' →
      ∃ r, r ∈ get_skill_history st' user_id (some session_id) ∧
        r.skill_type = judgement.skill_type ∧ r.score = judgement.score ∧
        r.reason = judgement.reason ∧ r.confidence = judgement.confidence ∧
        callTime ≤ r.created_at := by
  constructor
  · intro st uid sid
    exact List.sorted_insertionSort rowLe _
  · intro st st' now callTime uid sid j hct hadd
    unfold add_skill_evaluation at hadd
    cases hj : j.skill_type with
    | none => rw [hj] at hadd; exact absurd hadd (by simp)
    | some s =>
        rw [hj] at hadd
        simp only [Except.ok.injEq] at hadd
        refine ⟨{ id := st.nextId, user_id := uid, session_id := sid,
                  skill_type := some s, score := j.score, reason := j.reason,
                  confidence := j.confidence, conversation_context := j.conversation_context,
                  created_at := now }, ?_, rfl, rfl, rfl, rfl, hct⟩
        unfold get_skill_history
        rw [List.mem_insertionSort]
        refine List.mem_filter.mpr ⟨?_, by simp⟩
        rw [← hadd]
        simp [hj]

/-- Witness for C6 after one append into the empty store. -/
theorem judgment_roundtrip_witness :
    (get_skill_history
        ⟨[⟨0, "u", "s", some "empathy", 1/2, "good", 1, none, 5⟩], 1⟩ "u" (some "s")).Sorted
      rowLe ∧
    ∃ r, r ∈ get_skill_history
        ⟨[⟨0, "u", "s", some "empathy", 1/2, "good", 1, none, 5⟩], 1⟩ "u" (some "s") ∧
      r.skill_type = some "empathy" ∧ r.score = 1/2 ∧ r.reason = "good" ∧
      r.confidence = 1 ∧ 3 ≤ r.created_at :=
  ⟨judgment_roundtrip.1 _ "u" (some "s"),
   judgment_roundtrip.2 ⟨[], 0⟩ _ 5 3 "u" "s"
     { skill_type := some "empathy", score := 1/2, reason := "good", confidence := 1 }
     (by decide) rfl⟩

/-- C9: the stored record is independent of the caller-supplied timestamp
field of the judgment — two appends differing only there persist identical
states — and created_at of the appended row is the write-time clock of the store. -/
theorem server_assigned_timestamp :
    (∀ (st : DBState) (now : ℕ) (user_id session_id : String) (j : SkillJudgementFull)
        (t t' : Option ℕ),
        add_skill_evaluation st now user_id session_id { j with timestamp := t } =
          add_skill_evaluation st now user_id session_id { j with timestamp := t' }) ∧
    ∀ (st st' : DBState) (now : ℕ) (user_id session_id : String) (j : SkillJudgementFull),
      add_skill_evaluation st now user_id session_id j = .ok st' →
      ∃ r, st'.rows = st.rows ++ [r] ∧ r.created_at = now := by
  constructor
  · intro st now uid sid j t t'
    rfl
  · intro st st' now uid sid j hadd
    unfold add_skill_evaluation at hadd
    cases hj : j.skill_type with
    | none => rw [hj] at hadd; exact absurd hadd (by simp)
    | some s =>
        rw [hj] at hadd
        simp only [Except.ok.injEq] at hadd
        exact ⟨_, by rw [← hadd], rfl⟩

/-- Witness for C9 at a concrete store and judgment. -/
theorem server_assigned_timestamp_witness :
    add_skill_evaluation ⟨[], 0⟩ 7 "u" "s"
        { skill_type := some "empathy", score := 1/2, reason := "good", confidence := 1,
          timestamp := some 1 } =
      add_skill_evaluation ⟨[], 0⟩ 7 "u" "s"
        { skill_type := some "empathy", score := 1/2, reason := "good", confidence := 1,
          timestamp := some 999 } ∧
    ∃ r, (⟨[⟨0, "u", "s", some "empathy", 1/2, "good", 1, none, 7⟩], 1⟩ : DBState).rows =
        (⟨[], 0⟩ : DBState).rows ++ [r] ∧ r.created_at = 7 :=
  ⟨server_assigned_timestamp.1 ⟨[], 0⟩ 7 "u" "s"
     { skill_type := some "empathy", score := 1/2, reason := "good", confidence := 1 }
     (some 1) (some 999),
   server_assigned_timestamp.2 ⟨[], 0⟩ _ 7 "u" "s"
     { skill_type := some "empathy", score := 1/2, reason := "good", confidence := 1 } rfl⟩

/-- C10: the judge_conversation tool persists a judgment only when its
skill_type is non-null, so the invariant that every stored skill_evaluations
row carries a concrete skill name is preserved; a null-skill judgment leaves
the store unchanged. -/
theorem stored_skill_nonnull_invariant :
    ∀ (st : DBState) (now : ℕ) (user_id session_id : String) (j : SkillJudgementFull),
      ((∀ r ∈ st.rows, r.skill_type ≠ none) →
        ∀ r ∈ (judge_conversation_store st now user_id session_id j).rows,
          r.skill_type ≠ none) ∧
      (j.skill_type = none → judge_conversation_store st now user_id session_id j = st) := by
  intro st now uid sid j
  constructor
  · intro hinv r hr
    cases hj : j.skill_type with
    | none =>
        rw [(by simp [judge_conversation_store, hj] :
          judge_conversation_store st now uid sid j = st)] at hr
        exact hinv r hr
    | some s =>
        simp only [judge_conversation_store, add_skill_evaluation, hj, Option.isSome_some,
          if_true] at hr
        rcases List.mem_append.mp hr with h | h
        · exact hinv r h
        · rw [List.mem_singleton.mp h]
          simp [hj]
  · intro hj
    simp [judge_conversation_store, hj]

/-- Witness for C10 on a store holding one row. -/
theorem stored_skill_nonnull_invariant_witness :
    (∀ r ∈ (judge_conversation_store
        ⟨[⟨0, "u", "s", some "empathy", 1/2, "ok", 1, none, 4⟩], 1⟩ 9 "u" "s"
        { skill_type := some "small_talk", score := 1, reason := "nice", confidence := 1 }).rows,
      r.skill_type ≠ none) ∧
    judge_conversation_store
        ⟨[⟨0, "u", "s", some "empathy", 1/2, "ok", 1, none, 4⟩], 1⟩ 9 "u" "s"
        { skill_type := none, score := 0, reason := "none detected", confidence := 1 } =
      ⟨[⟨0, "u", "s", some "empathy", 1/2, "ok", 1, none, 4⟩], 1⟩ :=
  ⟨(stored_skill_nonnull_invariant
      ⟨[⟨0, "u", "s", some "empathy", 1/2, "ok", 1, none, 4⟩], 1⟩ 9 "u" "s"
      { skill_type := some "small_talk", score := 1, reason := "nice", confidence := 1 }).1
     (by decide),
   (stored_skill_nonnull_invariant
      ⟨[⟨0, "u", "s", some "empathy", 1/2, "ok", 1, none, 4⟩], 1⟩ 9 "u" "s"
      { skill_type := none, score := 0, reason := "none detected", confidence := 1 }).2 rfl⟩

/-- Counter accumulation of the summary loop: mastered counts taxonomy skills
whose grouped scores pass is_skill_mastered, in_progress counts skills with at
least one evaluation that are not mastered. -/
theorem summaryFold_counts (hist : List SkillEvalRow) :
    ∀ (keys : List String) (acc : List (String × SkillStatus) × ℕ × ℕ),
      (keys.foldl (summaryFold hist) acc).2.1 =
        acc.2.1 + keys.countP (fun sk =>
          is_skill_mastered (scoresFor hist sk) MASTERY_THRESHOLD) ∧
      (keys.foldl (summaryFold hist) acc).2.2 =
        acc.2.2 + keys.countP (fun sk =>
          !(scoresFor hist sk).isEmpty &&
            !is_skill_mastered (scoresFor hist sk) MASTERY_THRESHOLD) := by
  intro keys
  induction keys with
  | nil => intro acc; simp
  | cons k ks ih =>
      intro acc
      have hstep := ih (summaryFold hist acc k)
      by_cases hemp : (scoresFor hist k).isEmpty
      · have hmast : is_skill_mastered (scoresFor hist k) MASTERY_THRESHOLD = false := by
          rw [List.isEmpty_iff] at hemp
          rw [hemp]
          rfl
        constructor
        · rw [List.foldl_cons, hstep.1, List.countP_cons]
          simp [summaryFold, hemp, hmast]
        · rw [List.foldl_cons, hstep.2, List.countP_cons]
          simp [summaryFold, hemp, hmast]
      · constructor
        · rw [List.foldl_cons, hstep.1, List.countP_cons]
          by_cases hm : is_skill_mastered (scoresFor hist k) MASTERY_THRESHOLD
          · simp [summaryFold, hemp, hm]
            omega
          · simp [summaryFold, hemp, hm]
        · rw [List.foldl_cons, hstep.2, List.countP_cons]
          by_cases hm : is_skill_mastered (scoresFor hist k) MASTERY_THRESHOLD
          · simp [summaryFold, hemp, hm]
          · simp [summaryFold, hemp, hm]
            omega

/-- C7: with zero stored judgments the summary lists every taxonomy skill with
zero evaluations and is_mastered false, total_skills is the taxonomy size (10)
and both roll-up counters are 0; in general mastered_skills counts skills
whose grouped scores are mastered and skills_in_progress counts skills with at
least one evaluation that are not mastered. -/
theorem skill_summary_spec :
    ((get_user_skill_summary []).skill_details =
        socialSkillNames.map (fun sk =>
          (sk, ({ weighted_score := 0, is_mastered := false, total_evaluations := 0,
                  latest_score := none } : SkillStatus))) ∧
      (get_user_skill_summary []).total_skills = socialSkillNames.length ∧
      socialSkillNames.length = 10 ∧
      (get_user_skill_summary []).mastered_skills = 0 ∧
      (get_user_skill_summary []).skills_in_progress = 0) ∧
    ∀ (skill_history : List SkillEvalRow),
      (get_user_skill_summary skill_history).total_skills = socialSkillNames.length ∧
      (get_user_skill_summary skill_history).mastered_skills =
        socialSkillNames.countP (fun sk =>
          is_skill_mastered (scoresFor skill_history sk) MASTERY_THRESHOLD) ∧
      (get_user_skill_summary skill_history).skills_in_progress =
        socialSkillNames.countP (fun sk =>
          !(scoresFor skill_history sk).isEmpty &&
            !is_skill_mastered (scoresFor skill_history sk) MASTERY_THRESHOLD) := by
  constructor
  · exact ⟨rfl, rfl, rfl, rfl, rfl⟩
  · intro hist
    refine ⟨rfl, ?_, ?_⟩
    · have h := (summaryFold_counts hist socialSkillNames ([], 0, 0)).1
      simpa [get_user_skill_summary] using h
    · have h := (summaryFold_counts hist socialSkillNames ([], 0, 0)).2
      simpa [get_user_skill_summary] using h

end HikkiBuddy
